import Mathlib

/-
Verification of the tic-tac-toe game backend
(src/tic_tac_toe_backend/src/api/game.py and schemas.py) against its
natural-language specification.  The Python source is shallowly embedded:
boards are 3x3 tuples of optional symbols, Python list indexing (including
negative-index wraparound and IndexError) is modelled by Option-valued
accessors, HTTP error responses become an error enumeration, and the
database session becomes explicit state (a game row, its move rows and its
match-history rows).
-/

namespace TTT

/-- The two player marks, Python strings "X" and "O". -/
inductive Symbol where
  | X : Symbol
  | O : Symbol
deriving DecidableEq, Repr, Fintype

/-- Turn flip, `"O" if game.current_turn == "X" else "X"` (game.py line 188). -/
def Symbol.other : Symbol → Symbol
  | .X => .O
  | .O => .X

/-- A board cell: None, "X" or "O". -/
abbrev Cell := Option Symbol

/-- One row of the board, a Python list of three cells. -/
abbrev Line := Cell × Cell × Cell

/-- A 3x3 board, Python list of three rows. -/
abbrev Board := Line × Line × Line

/-- game.py `empty_board`: a 3x3 grid of None. -/
def empty_board : Board :=
  ((none, none, none), (none, none, none), (none, none, none))

/-- Python index normalisation for a list of length 3: indices 0..2 are
themselves, -3..-1 wrap around from the end, anything else raises
IndexError (modelled as `none`). -/
def pyIdx3 (i : Int) : Option Nat :=
  if 0 ≤ i ∧ i < 3 then some i.toNat
  else if -3 ≤ i ∧ i < 0 then some (i + 3).toNat
  else none

/-- Read a cell of a row at a normalised index. -/
def line_get : Line → Nat → Option Cell
  | (a, _, _), 0 => some a
  | (_, b, _), 1 => some b
  | (_, _, c), 2 => some c
  | _, _ => none

/-- Write a cell of a row at a normalised index. -/
def line_set : Line → Nat → Cell → Option Line
  | (_, b, c), 0, v => some (v, b, c)
  | (a, _, c), 1, v => some (a, v, c)
  | (a, b, _), 2, v => some (a, b, v)
  | _, _, _ => none

/-- Read a row of a board at a normalised index. -/
def board_get_row : Board → Nat → Option Line
  | (r, _, _), 0 => some r
  | (_, s, _), 1 => some s
  | (_, _, t), 2 => some t
  | _, _ => none

/-- Replace a row of a board at a normalised index. -/
def board_set_row : Board → Nat → Line → Option Board
  | (_, s, t), 0, r => some (r, s, t)
  | (r, _, t), 1, s => some (r, s, t)
  | (r, s, _), 2, t => some (r, s, t)
  | _, _, _ => none

/-- `board[i][j]` for already-normalised indices. -/
def board_get_nat (b : Board) (i j : Nat) : Option Cell :=
  (board_get_row b i).bind fun r => line_get r j

/-- `board[i][j] = v` for already-normalised indices. -/
def board_set_nat (b : Board) (i j : Nat) (v : Cell) : Option Board :=
  (board_get_row b i).bind fun r =>
    (line_set r j v).bind fun r2 => board_set_row b i r2

/-- `board[row][col]` with Python indexing; `none` is an IndexError. -/
def board_get_py (b : Board) (row col : Int) : Option Cell :=
  (pyIdx3 row).bind fun i => (pyIdx3 col).bind fun j => board_get_nat b i j

/-- `board[row][col] = v` with Python indexing; `none` is an IndexError. -/
def board_set_py (b : Board) (row col : Int) (v : Cell) : Option Board :=
  (pyIdx3 row).bind fun i => (pyIdx3 col).bind fun j => board_set_nat b i j v

/-- A row of the moves table (db.py `Move`): game_id, move_number,
player_id, row, col, symbol. -/
structure MoveRec where
  game_id : Nat
  move_number : Nat
  player_id : Nat
  row : Int
  col : Int
  symbol : Symbol
deriving DecidableEq, Repr

/-- game.py `reconstruct_board`: start from the empty board and assign
`board[move.row][move.col] = move.symbol` for each move in order.  There is
no occupancy check; an out-of-range index is an IndexError (`none`). -/
def reconstruct_board (moves : List MoveRec) : Option Board :=
  List.foldlM (fun b m => board_set_py b m.row m.col (some m.symbol))
    empty_board moves

/-- The `lines` list built by game.py `check_winner`, in source order: the
loop appends row i then column i for i = 0,1,2, then the two diagonals. -/
def board_lines (b : Board) : List Line :=
  match b with
  | ((a0, a1, a2), (b0, b1, b2), (c0, c1, c2)) =>
    [(a0, a1, a2), (a0, b0, c0),
     (b0, b1, b2), (a1, b1, c1),
     (c0, c1, c2), (a2, b2, c2),
     (a0, b1, c2), (a2, b1, c0)]

/-- One loop body of `check_winner`: `line[0]` truthy (non-None) and every
cell equal to `line[0]`. -/
def line_win : Line → Option Symbol
  | (some s, b, c) => if b = some s ∧ c = some s then some s else none
  | (none, _, _) => none

/-- The `for line in lines` scan: return the first winning line's symbol. -/
def first_line_win : List Line → Option Symbol
  | [] => none
  | l :: rest =>
    match line_win l with
    | some s => some s
    | none => first_line_win rest

/-- `all(cell is not None for row in board for cell in row)`. -/
def board_full (b : Board) : Bool :=
  match b with
  | ((a0, a1, a2), (b0, b1, b2), (c0, c1, c2)) =>
    a0.isSome && a1.isSome && a2.isSome &&
    b0.isSome && b1.isSome && b2.isSome &&
    c0.isSome && c1.isSome && c2.isSome

/-- Return value of `check_winner`: "X", "O", "draw" or None. -/
inductive WinResult where
  | sym : Symbol → WinResult
  | draw : WinResult
  | none : WinResult
deriving DecidableEq, Repr

/-- game.py `check_winner`: scan the interleaved line list for a complete
line, else draw if the board is full, else None. -/
def check_winner (b : Board) : WinResult :=
  match first_line_win (board_lines b) with
  | some s => WinResult.sym s
  | Option.none => if board_full b then WinResult.draw else WinResult.none

/-- The 8 lines in the order written in the spec (section 4.1): the 3 rows,
then the 3 columns, then the 2 diagonals. -/
def spec_lines (b : Board) : List Line :=
  match b with
  | ((a0, a1, a2), (b0, b1, b2), (c0, c1, c2)) =>
    [(a0, a1, a2), (b0, b1, b2), (c0, c1, c2),
     (a0, b0, c0), (a1, b1, c1), (a2, b2, c2),
     (a0, b1, c2), (a2, b1, c0)]

/-- Spec wording: a line wins if all three cells are non-empty and
identical. -/
def spec_line_winner : Line → Option Symbol
  | (some a, some b, some c) => if a = b ∧ b = c then some a else none
  | _ => none

/-- Spec wording: the symbol of the first complete line in scan order. -/
def spec_first_winner : List Line → Option Symbol
  | [] => none
  | l :: rest =>
    match spec_line_winner l with
    | some s => some s
    | none => spec_first_winner rest

/-- Reference evaluator written from the spec's words: scan rows, then
columns, then diagonals; win before draw; draw iff no line complete and
all 9 cells occupied. -/
def check_winner_spec (b : Board) : WinResult :=
  match spec_first_winner (spec_lines b) with
  | some s => WinResult.sym s
  | Option.none => if board_full b then WinResult.draw else WinResult.none

/-- Spec predicate: this line has all three cells non-empty and identical. -/
def line_complete (l : Line) : Prop :=
  ∃ s : Symbol, l = (some s, some s, some s)

instance (l : Line) : Decidable (line_complete l) := by
  unfold line_complete; infer_instance

/-- Spec predicate: some of the 8 lines (3 rows, 3 columns, 2 diagonals)
is complete. -/
def has_complete_line (b : Board) : Prop :=
  ∃ l ∈ spec_lines b, line_complete l

instance (b : Board) : Decidable (has_complete_line b) := by
  unfold has_complete_line; infer_instance

/-- The game-status enumeration of db.py (`game_status`). -/
inductive GameStatus where
  | waiting : GameStatus
  | in_progress : GameStatus
  | x_won : GameStatus
  | o_won : GameStatus
  | draw : GameStatus
  | abandoned : GameStatus
deriving DecidableEq, Repr

/-- A row of the games table (db.py `Game`).  `game_mode` is kept as a
string because the request schema does not constrain it and game.py
compares it against string literals.  Timestamps are abstract `Nat`
instants. -/
structure Game where
  id : Nat
  player_x_id : Nat
  player_o_id : Option Nat
  status : GameStatus
  current_turn : Symbol
  game_mode : String
  winner_id : Option Nat
  end_time : Option Nat
deriving DecidableEq, Repr

/-- A row of the match_history table (db.py `MatchHistory`). -/
structure MatchHistoryRec where
  game_id : Nat
  player_x_id : Nat
  player_o_id : Option Nat
  winner_id : Option Nat
  result : GameStatus
  finished_at : Nat
deriving DecidableEq, Repr

/-- A registered user, as far as the game endpoints consult it. -/
structure UserRec where
  id : Nat
  username : String
deriving DecidableEq, Repr

/-- schemas.py `StartGameRequest`. -/
structure StartGameRequest where
  opponent_username : Option String
  game_mode : String
deriving DecidableEq, Repr

/-- The error responses the two game endpoints can produce, together with
`indexError` for an uncaught Python IndexError, `validationError` for a
pydantic request-validation failure, and `outOfBounds` for the
spec's OutOfBounds kind (which the code never raises). -/
inductive ApiError where
  | gameNotFound : ApiError
  | gameNotActive : ApiError
  | playerNotInGame : ApiError
  | notYourTurn : ApiError
  | cellOccupied : ApiError
  | outOfBounds : ApiError
  | invalidOpponent : ApiError
  | indexError : ApiError
  | validationError : ApiError
deriving DecidableEq, Repr

/-- Everything a successful make_move commits and returns: the updated
game row, the inserted move row, the post-move board, the match-history
row inserted iff the game just ended, and the response's is_draw flag. -/
structure MoveResult where
  game : Game
  move : MoveRec
  board : Board
  history : Option MatchHistoryRec
  is_draw : Bool
deriving DecidableEq, Repr

/-- game.py lines 121-129: the symbol the requesting user plays as, or
`none` for the "Player not part of this game." rejection.  Note the third
branch tests only that `player_o_id` is unset and the mode is
vs_computer; it does not compare the requester against `player_x_id`. -/
def resolve_symbol (game : Game) (uid : Nat) : Option Symbol :=
  if game.player_x_id = uid then some Symbol.X
  else if game.player_o_id = some uid then some Symbol.O
  else if game.player_o_id = none ∧ game.game_mode = "vs_computer" then some Symbol.X
  else none

/-- Python truthiness of an optional integer id: `if winner_id:` is false
for both None and 0. -/
def py_truthy_id : Option Nat → Bool
  | none => false
  | some n => !(n == 0)

/-- game.py lines 154-196: everything after the move has been placed on
the board.  Evaluates `check_winner`, derives the new status and winner,
finalises end_time and inserts the match-history row when the status is
terminal, flips the turn when still in progress. -/
def finalize_move (game : Game) (board2 : Board) (mv : MoveRec) (now : Nat) :
    MoveResult :=
  let winner_symbol := check_winner board2
  let wid0 : Option Nat :=
    match winner_symbol with
    | WinResult.sym Symbol.X => some game.player_x_id
    | WinResult.sym Symbol.O => game.player_o_id
    | _ => none
  let status2 : GameStatus :=
    match winner_symbol with
    | WinResult.draw => GameStatus.draw
    | WinResult.sym Symbol.X => GameStatus.x_won
    | WinResult.sym Symbol.O => GameStatus.o_won
    | WinResult.none => GameStatus.in_progress
  let is_draw : Bool :=
    match winner_symbol with
    | WinResult.draw => true
    | _ => false
  let game2 := { game with status := status2 }
  let game3 := if py_truthy_id wid0 then { game2 with winner_id := wid0 } else game2
  let finalized : Game × Option MatchHistoryRec :=
    if status2 = GameStatus.x_won ∨ status2 = GameStatus.o_won ∨
        status2 = GameStatus.draw then
      let g := { game3 with end_time := some now }
      (g, some ⟨game.id, game.player_x_id, game.player_o_id, g.winner_id,
                status2, now⟩)
    else (game3, none)
  let game4 := finalized.1
  let game5 :=
    if status2 = GameStatus.in_progress then
      { game4 with current_turn := game4.current_turn.other }
    else game4
  ⟨game5, mv, board2, finalized.2, is_draw⟩

/-- game.py `make_move` (lines 114-196), after the game row has been
fetched: guard the status, resolve the requester's symbol, check the turn,
rebuild the board from the stored moves, reject an occupied target cell,
place the move and finalise.  `none` results of the board accessors are
Python IndexErrors. -/
def make_move (game : Game) (moves : List MoveRec) (uid : Nat)
    (row col : Int) (now : Nat) : Except ApiError MoveResult :=
  if game.status ≠ GameStatus.in_progress then Except.error ApiError.gameNotActive
  else
    match resolve_symbol game uid with
    | none => Except.error ApiError.playerNotInGame
    | some symbol =>
      if game.current_turn ≠ symbol then Except.error ApiError.notYourTurn
      else
        match reconstruct_board moves with
        | none => Except.error ApiError.indexError
        | some board =>
          match board_get_py board row col with
          | none => Except.error ApiError.indexError
          | some cell =>
            if cell ≠ none then Except.error ApiError.cellOccupied
            else
              match board_set_py board row col (some symbol) with
              | none => Except.error ApiError.indexError
              | some board2 =>
                Except.ok (finalize_move game board2
                  ⟨game.id, moves.length + 1, uid, row, col, symbol⟩ now)

/-- `db.query(User).filter(User.username == name).first()`. -/
def find_user (users : List UserRec) (name : String) : Option UserRec :=
  users.find? fun u => u.username == name

/-- Python truthiness of the optional opponent_username string: None and
the empty string are falsy. -/
def py_truthy_str : Option String → Bool
  | none => false
  | some s => !(s == "")

/-- Python `str.lower()`, modelled character-wise. -/
def py_lower (s : String) : String := String.mk (s.data.map Char.toLower)

/-- The game row game.py `start_game` inserts (lines 78-84): the creator
in the X slot, status in_progress (the conditional on line 81 yields
"in_progress" in both arms), turn X, no winner, no end time. -/
def new_game (gid : Nat) (pxid : Nat) (poid : Option Nat) (mode : String) :
    Game :=
  ⟨gid, pxid, poid, GameStatus.in_progress, Symbol.X, mode, none, none⟩

/-- game.py `start_game` (lines 59-93): with a truthy opponent_username
and mode "vs_player", resolve the opponent by lowercased username and
reject an unknown or self opponent; otherwise create a vs_computer game
with the O slot empty.  `gid` is the id the database assigns. -/
def start_game (gid : Nat) (users : List UserRec) (current_user : UserRec)
    (req : StartGameRequest) : Except ApiError Game :=
  if py_truthy_str req.opponent_username ∧ req.game_mode = "vs_player" then
    match find_user users (py_lower (req.opponent_username.getD "")) with
    | none => Except.error ApiError.invalidOpponent
    | some opponent =>
      if opponent.id = current_user.id then Except.error ApiError.invalidOpponent
      else Except.ok (new_game gid current_user.id (some opponent.id) "vs_player")
  else Except.ok (new_game gid current_user.id none "vs_computer")

/-- schemas.py `MoveRequest` (lines 47-50): pydantic validates
0 <= row <= 2 and 0 <= col <= 2 before game.py ever runs. -/
def validate_move_request (row col : Int) : Except ApiError (Int × Int) :=
  if 0 ≤ row ∧ row ≤ 2 ∧ 0 ≤ col ∧ col ≤ 2 then Except.ok (row, col)
  else Except.error ApiError.validationError

/-- The persisted state of one game: its game row, its move rows in
move_number order, and its match-history rows. -/
structure SysState where
  game : Game
  moves : List MoveRec
  histories : List MatchHistoryRec
deriving DecidableEq, Repr

/-- One committed core operation on a game's state: a successful
make_move call by some authenticated user.  Failed calls raise before
anything is added to the session, so they leave the state unchanged and
need no transition. -/
inductive MStep : SysState → SysState → Prop where
  | move (s : SysState) (uid : Nat) (row col : Int) (now : Nat)
      (res : MoveResult) :
      make_move s.game s.moves uid row col now = Except.ok res →
      MStep s ⟨res.game, s.moves ++ [res.move], s.histories ++ res.history.toList⟩

/-- States reachable from `s0` by repeated make_move calls. -/
def Reachable (s0 s : SysState) : Prop :=
  Relation.ReflTransGen MStep s0 s

/-- The state just after start_game committed: the new game row, no move
rows, no match-history rows. -/
def init_state (g : Game) : SysState := ⟨g, [], []⟩

/-- The spec's terminal status set. -/
def terminal_status (st : GameStatus) : Prop :=
  st = GameStatus.x_won ∨ st = GameStatus.o_won ∨ st = GameStatus.draw ∨
  st = GameStatus.abandoned

deriving instance DecidableEq for Except

/-- Invariant of a vs_computer game (O slot empty) under make_move: the
game is stuck after at most one move because every requester resolves to
X while the turn is O. -/
def vsc_inv (s : SysState) : Prop :=
  s.game.player_o_id = none ∧
  s.game.game_mode = "vs_computer" ∧
  s.game.status = GameStatus.in_progress ∧
  s.histories = [] ∧
  ((s.moves = [] ∧ s.game.current_turn = Symbol.X) ∨
   (s.moves.length = 1 ∧ s.game.current_turn = Symbol.O))

/-- Invariant tying a game's match-history rows to its status: none while
in progress (with no winner recorded), exactly one — whose fields mirror
the game row — once terminal. -/
def hist_inv (s : SysState) : Prop :=
  (s.game.status = GameStatus.in_progress ∧ s.game.winner_id = none ∧
    s.histories = []) ∨
  ((s.game.status = GameStatus.x_won ∨ s.game.status = GameStatus.o_won ∨
      s.game.status = GameStatus.draw) ∧
    ∃ hrec, s.histories = [hrec] ∧
      hrec.game_id = s.game.id ∧
      hrec.player_x_id = s.game.player_x_id ∧
      hrec.player_o_id = s.game.player_o_id ∧
      hrec.winner_id = s.game.winner_id ∧
      hrec.result = s.game.status ∧
      (s.game.status = GameStatus.draw → hrec.winner_id = none))

/-- A vs_computer game with its O slot empty, played by user 1. -/
def gC1 : Game :=
  ⟨1, 1, none, GameStatus.in_progress, Symbol.X, "vs_computer", none, none⟩

/-- What make_move commits when the unrelated user 2 plays (0,0) in
`gC1`. -/
def r1w : MoveResult :=
  ⟨⟨1, 1, none, GameStatus.in_progress, Symbol.O, "vs_computer", none, none⟩,
   ⟨1, 1, 2, 0, 0, Symbol.X⟩,
   ((some Symbol.X, none, none), (none, none, none), (none, none, none)),
   none, false⟩

/-- A finished (terminal) game row. -/
def g3w : Game :=
  ⟨3, 1, some 2, GameStatus.x_won, Symbol.X, "vs_player", some 1, some 5⟩

/-- An in-progress vs_player game between users 1 (X) and 2 (O). -/
def g4w : Game :=
  ⟨1, 1, some 2, GameStatus.in_progress, Symbol.X, "vs_player", none, none⟩

/-- Four stored moves of `g4w`: X on (0,0) and (0,1), O on (1,0) and
(1,1); X to play. -/
def ms4w : List MoveRec :=
  [⟨1, 1, 1, 0, 0, Symbol.X⟩, ⟨1, 2, 2, 1, 0, Symbol.O⟩,
   ⟨1, 3, 1, 0, 1, Symbol.X⟩, ⟨1, 4, 2, 1, 1, Symbol.O⟩]

/-- What make_move commits when user 1 completes the top row of `g4w`
at time 99. -/
def r4w : MoveResult :=
  ⟨⟨1, 1, some 2, GameStatus.x_won, Symbol.X, "vs_player", some 1, some 99⟩,
   ⟨1, 5, 1, 0, 2, Symbol.X⟩,
   ((some Symbol.X, some Symbol.X, some Symbol.X),
    (some Symbol.O, some Symbol.O, none), (none, none, none)),
   some ⟨1, 1, some 2, some 1, GameStatus.x_won, 99⟩, false⟩

/-- Two stored moves that both target cell (0,0). -/
def dup_moves : List MoveRec :=
  [⟨1, 1, 1, 0, 0, Symbol.X⟩, ⟨1, 2, 1, 0, 0, Symbol.O⟩]

/-- What make_move commits when user 1 plays row -1 (a Python index that
wraps to row 2) in a fresh `g4w`. -/
def r10w : MoveResult :=
  ⟨⟨1, 1, some 2, GameStatus.in_progress, Symbol.O, "vs_player", none, none⟩,
   ⟨1, 1, 1, -1, 0, Symbol.X⟩,
   ((none, none, none), (none, none, none), (some Symbol.X, none, none)),
   none, false⟩

/- ### Lemmas about the board evaluator -/

theorem line_win_some : ∀ (x y z : Cell) (s : Symbol),
    line_win (x, y, z) = some s →
    x = some s ∧ y = some s ∧ z = some s := by
  decide

theorem line_win_complete {s : Symbol} :
    line_win (some s, some s, some s) = some s := by
  simp [line_win]

theorem fw_cons_some {l : Line} {ls : List Line} {s : Symbol}
    (h : line_win l = some s) :
    first_line_win (l :: ls) = some s := by
  simp [first_line_win, h]

theorem fw_cons_none {l : Line} {ls : List Line}
    (h : line_win l = none) :
    first_line_win (l :: ls) = first_line_win ls := by
  simp [first_line_win, h]

theorem fw_some_mem {ls : List Line} {s : Symbol}
    (h : first_line_win ls = some s) :
    ∃ l ∈ ls, line_win l = some s := by
  induction ls with
  | nil => exact Option.noConfusion h
  | cons l rest ih =>
    rcases hl : line_win l with _ | t
    · rw [fw_cons_none hl] at h
      obtain ⟨l2, hm, hw⟩ := ih h
      exact ⟨l2, List.mem_cons_of_mem l hm, hw⟩
    · rw [fw_cons_some hl] at h
      injection h with h
      subst h
      exact ⟨l, List.mem_cons_self l rest, hl⟩

theorem fw_none_all {ls : List Line}
    (h : first_line_win ls = none) :
    ∀ l ∈ ls, line_win l = none := by
  induction ls with
  | nil => intro l hl; cases hl
  | cons l rest ih =>
    rcases hl : line_win l with _ | t
    · rw [fw_cons_none hl] at h
      intro l2 hm
      rcases List.mem_cons.mp hm with rfl | hm2
      · exact hl
      · exact ih h l2 hm2
    · rw [fw_cons_some hl] at h
      exact Option.noConfusion h

theorem spec_line_winner_eq : ∀ x y z : Cell,
    spec_line_winner (x, y, z) = line_win (x, y, z) := by
  decide

theorem spec_fw_eq : ∀ ls : List Line,
    spec_first_winner ls = first_line_win ls := by
  intro ls
  induction ls with
  | nil => rfl
  | cons l rest ih =>
    obtain ⟨x, y, z⟩ := l
    simp only [spec_first_winner, first_line_win, spec_line_winner_eq, ih]

/-- The scan-order lemma behind C8: the interleaved scan and the
rows-then-columns scan agree whenever every (row, column) pair that the
two orders rank differently is forced to carry the same symbol when both
are complete (which holds on a board because a row and a column always
intersect). -/
theorem fw_interleave (r0 c0 r1 c1 r2 c2 d1 d2 : Line)
    (h10 : ∀ s t, line_win r1 = some s → line_win c0 = some t → s = t)
    (h20 : ∀ s t, line_win r2 = some s → line_win c0 = some t → s = t)
    (h21 : ∀ s t, line_win r2 = some s → line_win c1 = some t → s = t) :
    first_line_win [r0, c0, r1, c1, r2, c2, d1, d2] =
    first_line_win [r0, r1, r2, c0, c1, c2, d1, d2] := by
  rcases hr0 : line_win r0 with _ | s
  · rw [fw_cons_none hr0, fw_cons_none hr0]
    rcases hc0 : line_win c0 with _ | s
    · rw [fw_cons_none hc0]
      rcases hr1 : line_win r1 with _ | s
      · rw [fw_cons_none hr1, fw_cons_none hr1]
        rcases hc1 : line_win c1 with _ | s
        · rw [fw_cons_none hc1]
          rcases hr2 : line_win r2 with _ | s
          · rw [fw_cons_none hr2, fw_cons_none hr2, fw_cons_none hc0,
              fw_cons_none hc1]
          · rw [fw_cons_some hr2, fw_cons_some hr2]
        · rw [fw_cons_some hc1]
          rcases hr2 : line_win r2 with _ | t
          · rw [fw_cons_none hr2, fw_cons_none hc0, fw_cons_some hc1]
          · rw [fw_cons_some hr2]
            exact congrArg some (h21 t s hr2 hc1).symm
      · rw [fw_cons_some hr1, fw_cons_some hr1]
    · rw [fw_cons_some hc0]
      rcases hr1 : line_win r1 with _ | t
      · rw [fw_cons_none hr1]
        rcases hr2 : line_win r2 with _ | t
        · rw [fw_cons_none hr2, fw_cons_some hc0]
        · rw [fw_cons_some hr2]
          exact congrArg some (h20 t s hr2 hc0).symm
      · rw [fw_cons_some hr1]
        exact congrArg some (h10 t s hr1 hc0).symm
  · rw [fw_cons_some hr0, fw_cons_some hr0]

theorem mem_lines_iff (b : Board) (l : Line) :
    l ∈ board_lines b ↔ l ∈ spec_lines b := by
  obtain ⟨⟨x00, x01, x02⟩, ⟨x10, x11, x12⟩, ⟨x20, x21, x22⟩⟩ := b
  simp only [board_lines, spec_lines, List.mem_cons, List.not_mem_nil, or_false]
  tauto

/-- Claim C7: check_winner returns at most one non-none outcome (it is a
function into a single WinResult); it returns a win outcome iff some of
the 8 lines (3 rows, 3 columns, 2 diagonals) has all three cells
non-empty and identical — the win branch is checked before the draw
branch — and it returns draw iff no line is complete and all 9 cells are
occupied. -/
theorem claim_C7 (b : Board) :
    ((∃ s, check_winner b = WinResult.sym s) ↔ has_complete_line b) ∧
    (check_winner b = WinResult.draw ↔
      (¬ has_complete_line b ∧ board_full b = true)) := by
  have hmem := mem_lines_iff b
  rcases hfw : first_line_win (board_lines b) with _ | s <;>
    simp only [check_winner, hfw]
  · have hall := fw_none_all hfw
    have hno : ¬ has_complete_line b := by
      rintro ⟨l, hl, t, rfl⟩
      have h1 := hall _ ((hmem _).mpr hl)
      rw [line_win_complete] at h1
      exact Option.noConfusion h1
    have hns : ¬ ∃ s,
        (if board_full b = true then WinResult.draw else WinResult.none) =
          WinResult.sym s := by
      rintro ⟨s, hs⟩
      revert hs
      split <;> exact fun hs => WinResult.noConfusion hs
    refine ⟨iff_of_false hns hno, ?_⟩
    cases hbf : board_full b
    · simp [hbf]
    · simp [hbf, hno]
  · have hhas : has_complete_line b := by
      obtain ⟨l, hl, hw⟩ := fw_some_mem hfw
      obtain ⟨x, y, z⟩ := l
      obtain ⟨hx, hy, hz⟩ := line_win_some x y z s hw
      exact ⟨(x, y, z), (hmem _).mp hl, s, by rw [hx, hy, hz]⟩
    refine ⟨iff_of_true ⟨s, rfl⟩ hhas, iff_of_false ?_ ?_⟩
    · exact fun hs => WinResult.noConfusion hs
    · rintro ⟨hn, _⟩
      exact hn hhas

/-- Claim C8: check_winner is total (it cannot crash) and, on every board
— including boards with several simultaneously complete lines — it
returns the same result as the reference evaluator written from the
spec, which scans the 3 rows, then the 3 columns, then the 2 diagonals
and returns the symbol of the first complete line: the code's interleaved
scan order is extensionally equal to the spec's scan order. -/
theorem claim_C8 (b : Board) : check_winner b = check_winner_spec b := by
  obtain ⟨⟨x00, x01, x02⟩, ⟨x10, x11, x12⟩, ⟨x20, x21, x22⟩⟩ := b
  have h10 : ∀ s t, line_win (x10, x11, x12) = some s →
      line_win (x00, x10, x20) = some t → s = t := by
    intro s t hs ht
    have h1 := (line_win_some _ _ _ _ hs).1
    have h2 := (line_win_some _ _ _ _ ht).2.1
    rw [h1] at h2
    exact Option.some.inj h2
  have h20 : ∀ s t, line_win (x20, x21, x22) = some s →
      line_win (x00, x10, x20) = some t → s = t := by
    intro s t hs ht
    have h1 := (line_win_some _ _ _ _ hs).1
    have h2 := (line_win_some _ _ _ _ ht).2.2
    rw [h1] at h2
    exact Option.some.inj h2
  have h21 : ∀ s t, line_win (x20, x21, x22) = some s →
      line_win (x01, x11, x21) = some t → s = t := by
    intro s t hs ht
    have h1 := (line_win_some _ _ _ _ hs).2.1
    have h2 := (line_win_some _ _ _ _ ht).2.2
    rw [h1] at h2
    exact Option.some.inj h2
  have h := fw_interleave (x00, x01, x02) (x00, x10, x20) (x10, x11, x12)
    (x01, x11, x21) (x20, x21, x22) (x02, x12, x22) (x00, x11, x22)
    (x02, x11, x20) h10 h20 h21
  unfold check_winner check_winner_spec
  simp only [board_lines, spec_lines, spec_fw_eq]
  rw [h]

/- ### Lemmas about the move pipeline -/

theorem pyIdx3_lt {z : Int} {n : Nat} (h : pyIdx3 z = some n) : n < 3 := by
  unfold pyIdx3 at h
  split at h
  · rename_i hc
    injection h with h
    omega
  · split at h
    · rename_i hc
      injection h with h
      omega
    · exact Option.noConfusion h

theorem board_set_nat_isSome (b : Board) (i j : Nat) (v : Cell)
    (hi : i < 3) (hj : j < 3) : (board_set_nat b i j v).isSome = true := by
  obtain ⟨⟨x00, x01, x02⟩, ⟨x10, x11, x12⟩, ⟨x20, x21, x22⟩⟩ := b
  interval_cases i <;> interval_cases j <;>
    simp [board_set_nat, board_get_row, line_set, board_set_row]

theorem check_winner_single {row col : Int} {s : Symbol} {b2 : Board}
    (h : board_set_py empty_board row col (some s) = some b2) :
    check_winner b2 = WinResult.none := by
  unfold board_set_py at h
  rcases hi : pyIdx3 row with _ | i
  · rw [hi] at h
    exact Option.noConfusion h
  · rw [hi] at h
    rcases hj : pyIdx3 col with _ | j
    · rw [hj] at h
      exact Option.noConfusion h
    · rw [hj] at h
      simp only [Option.some_bind] at h
      have hi3 := pyIdx3_lt hi
      have hj3 := pyIdx3_lt hj
      interval_cases i <;> interval_cases j <;> cases s <;>
        simp only [board_set_nat, board_get_row, line_set, board_set_row,
          Option.some_bind, Option.some.injEq] at h <;>
        (subst h; decide)

theorem make_move_ok_inv {g : Game} {ms : List MoveRec} {uid : Nat}
    {row col : Int} {now : Nat} {res : MoveResult}
    (h : make_move g ms uid row col now = Except.ok res) :
    g.status = GameStatus.in_progress ∧
    ∃ sym board board2,
      resolve_symbol g uid = some sym ∧
      g.current_turn = sym ∧
      reconstruct_board ms = some board ∧
      board_get_py board row col = some none ∧
      board_set_py board row col (some sym) = some board2 ∧
      res = finalize_move g board2 ⟨g.id, ms.length + 1, uid, row, col, sym⟩
              now := by
  unfold make_move at h
  split at h
  · exact absurd h (by simp)
  · rename_i hst
    refine ⟨not_not.mp hst, ?_⟩
    split at h
    · exact absurd h (by simp)
    · rename_i sym hsym
      split at h
      · exact absurd h (by simp)
      · rename_i hturn
        split at h
        · exact absurd h (by simp)
        · rename_i board hrec
          split at h
          · exact absurd h (by simp)
          · rename_i cell hget
            split at h
            · exact absurd h (by simp)
            · rename_i hcell
              split at h
              · exact absurd h (by simp)
              · rename_i board2 hset
                injection h with h
                rw [not_not.mp hcell] at hget
                exact ⟨sym, board, board2, hsym, not_not.mp hturn, hrec,
                  hget, hset, h.symm⟩

theorem make_move_not_active {g : Game} (ms : List MoveRec) (uid : Nat)
    (row col : Int) (now : Nat) (h : g.status ≠ GameStatus.in_progress) :
    make_move g ms uid row col now = Except.error ApiError.gameNotActive := by
  unfold make_move
  rw [if_pos h]

theorem resolve_symbol_px {g : Game} {uid : Nat} (h : g.player_x_id = uid) :
    resolve_symbol g uid = some Symbol.X := by
  simp [resolve_symbol, h]

theorem resolve_symbol_po {g : Game} {uid : Nat} (hx : g.player_x_id ≠ uid)
    (h : g.player_o_id = some uid) :
    resolve_symbol g uid = some Symbol.O := by
  simp [resolve_symbol, hx, h]

theorem resolve_symbol_vsc {g : Game} (uid : Nat)
    (hpo : g.player_o_id = none) (hm : g.game_mode = "vs_computer") :
    resolve_symbol g uid = some Symbol.X := by
  simp [resolve_symbol, hpo, hm]

theorem resolve_symbol_none {g : Game} {uid : Nat}
    (hx : g.player_x_id ≠ uid) (ho : g.player_o_id ≠ some uid)
    (hv : ¬(g.player_o_id = none ∧ g.game_mode = "vs_computer")) :
    resolve_symbol g uid = none := by
  simp only [resolve_symbol, if_neg hx, if_neg ho, if_neg hv]

theorem finalize_none {g : Game} {b2 : Board} {mv : MoveRec} {now : Nat}
    (h : check_winner b2 = WinResult.none) :
    finalize_move g b2 mv now =
      ⟨{ g with status := GameStatus.in_progress,
                current_turn := g.current_turn.other }, mv, b2, none,
       false⟩ := by
  obtain ⟨gid, px, po, st, turn, mode, win, endt⟩ := g
  simp [finalize_move, h, py_truthy_id]

theorem finalize_x {g : Game} {b2 : Board} {mv : MoveRec} {now : Nat}
    (h : check_winner b2 = WinResult.sym Symbol.X)
    (hx : g.player_x_id ≠ 0) :
    finalize_move g b2 mv now =
      ⟨{ g with status := GameStatus.x_won,
                winner_id := some g.player_x_id,
                end_time := some now }, mv, b2,
       some ⟨g.id, g.player_x_id, g.player_o_id, some g.player_x_id,
             GameStatus.x_won, now⟩, false⟩ := by
  obtain ⟨gid, px, po, st, turn, mode, win, endt⟩ := g
  have hbe : (px == 0) = false := by
    simpa using hx
  simp [finalize_move, h, py_truthy_id, hbe]

theorem finalize_o_some {g : Game} {b2 : Board} {mv : MoveRec} {now : Nat}
    {p : Nat} (h : check_winner b2 = WinResult.sym Symbol.O)
    (hpo : g.player_o_id = some p) (hp : p ≠ 0) :
    finalize_move g b2 mv now =
      ⟨{ g with status := GameStatus.o_won,
                winner_id := some p,
                end_time := some now }, mv, b2,
       some ⟨g.id, g.player_x_id, some p, some p, GameStatus.o_won, now⟩,
       false⟩ := by
  obtain ⟨gid, px, po, st, turn, mode, win, endt⟩ := g
  have hbe : (p == 0) = false := by
    simpa using hp
  subst hpo
  simp [finalize_move, h, py_truthy_id, hbe]

theorem finalize_o_none {g : Game} {b2 : Board} {mv : MoveRec} {now : Nat}
    (h : check_winner b2 = WinResult.sym Symbol.O)
    (hpo : g.player_o_id = none) :
    finalize_move g b2 mv now =
      ⟨{ g with status := GameStatus.o_won, end_time := some now }, mv, b2,
       some ⟨g.id, g.player_x_id, none, g.winner_id, GameStatus.o_won,
             now⟩, false⟩ := by
  obtain ⟨gid, px, po, st, turn, mode, win, endt⟩ := g
  subst hpo
  simp [finalize_move, h, py_truthy_id]

theorem finalize_draw {g : Game} {b2 : Board} {mv : MoveRec} {now : Nat}
    (h : check_winner b2 = WinResult.draw) :
    finalize_move g b2 mv now =
      ⟨{ g with status := GameStatus.draw, end_time := some now }, mv, b2,
       some ⟨g.id, g.player_x_id, g.player_o_id, g.winner_id,
             GameStatus.draw, now⟩, true⟩ := by
  obtain ⟨gid, px, po, st, turn, mode, win, endt⟩ := g
  simp [finalize_move, h, py_truthy_id]

theorem finalize_hist (g : Game) (b2 : Board) (mv : MoveRec) (now : Nat) :
    ((finalize_move g b2 mv now).game.status = GameStatus.in_progress ∧
      (finalize_move g b2 mv now).game.winner_id = g.winner_id ∧
      (finalize_move g b2 mv now).history = none) ∨
    (((finalize_move g b2 mv now).game.status = GameStatus.x_won ∨
      (finalize_move g b2 mv now).game.status = GameStatus.o_won ∨
      (finalize_move g b2 mv now).game.status = GameStatus.draw) ∧
      (finalize_move g b2 mv now).history =
        some ⟨g.id, g.player_x_id, g.player_o_id,
              (finalize_move g b2 mv now).game.winner_id,
              (finalize_move g b2 mv now).game.status, now⟩ ∧
      ((finalize_move g b2 mv now).game.status = GameStatus.draw →
        (finalize_move g b2 mv now).game.winner_id = g.winner_id)) := by
  obtain ⟨gid, px, po, st, turn, mode, win, endt⟩ := g
  rcases hw : check_winner b2 with s | _ | _
  · rcases s
    · cases hpx : px == 0 <;> simp [finalize_move, hw, py_truthy_id, hpx]
    · rcases po with _ | p
      · simp [finalize_move, hw, py_truthy_id]
      · cases hp : p == 0 <;> simp [finalize_move, hw, py_truthy_id, hp]
  · simp [finalize_move, hw, py_truthy_id]
  · simp [finalize_move, hw, py_truthy_id]

theorem finalize_fields (g : Game) (b2 : Board) (mv : MoveRec) (now : Nat) :
    (finalize_move g b2 mv now).game.id = g.id ∧
    (finalize_move g b2 mv now).game.player_x_id = g.player_x_id ∧
    (finalize_move g b2 mv now).game.player_o_id = g.player_o_id ∧
    (finalize_move g b2 mv now).game.game_mode = g.game_mode ∧
    (finalize_move g b2 mv now).move = mv ∧
    (finalize_move g b2 mv now).board = b2 := by
  obtain ⟨gid, px, po, st, turn, mode, win, endt⟩ := g
  rcases hw : check_winner b2 with s | _ | _
  · rcases s
    · cases hpx : px == 0 <;> simp [finalize_move, hw, py_truthy_id, hpx]
    · rcases po with _ | p
      · simp [finalize_move, hw, py_truthy_id]
      · cases hp : p == 0 <;> simp [finalize_move, hw, py_truthy_id, hp]
  · simp [finalize_move, hw, py_truthy_id]
  · simp [finalize_move, hw, py_truthy_id]

theorem start_game_ok_inv {gid : Nat} {users : List UserRec}
    {cu : UserRec} {req : StartGameRequest} {g : Game}
    (h : start_game gid users cu req = Except.ok g) :
    g = new_game gid cu.id none "vs_computer" ∨
    ∃ oid, g = new_game gid cu.id (some oid) "vs_player" := by
  unfold start_game at h
  split at h
  · split at h
    · exact absurd h (by simp)
    · rename_i opp hf
      split at h
      · exact absurd h (by simp)
      · injection h with h
        exact Or.inr ⟨opp.id, h.symm⟩
  · injection h with h
    exact Or.inl h.symm

/- ### State-machine invariants -/

theorem hist_inv_step {s s2 : SysState} (hs : hist_inv s) (st : MStep s s2) :
    hist_inv s2 := by
  rcases st with ⟨uid, row, col, now, res, hok⟩
  obtain ⟨hstat, sym, board, board2, hsym, hturn, hrec, hget, hset, hres⟩ :=
    make_move_ok_inv hok
  rcases hs with ⟨_, hwin, hh⟩ | ⟨hterm, _⟩
  · rcases finalize_hist s.game board2
        ⟨s.game.id, s.moves.length + 1, uid, row, col, sym⟩ now with
      ⟨h1, h2, h3⟩ | ⟨h1, h2, h3⟩ <;> rw [← hres] at h1 h2 h3
    · exact Or.inl ⟨h1, by rw [h2, hwin], by simp [hh, h3]⟩
    · obtain ⟨hid, hpx2, hpo2, -, -, -⟩ := finalize_fields s.game board2
        ⟨s.game.id, s.moves.length + 1, uid, row, col, sym⟩ now
      rw [← hres] at hid hpx2 hpo2
      refine Or.inr ⟨h1,
        ⟨s.game.id, s.game.player_x_id, s.game.player_o_id,
         res.game.winner_id, res.game.status, now⟩,
        ?_, hid.symm, hpx2.symm, hpo2.symm, rfl, rfl, ?_⟩
      · show s.histories ++ res.history.toList = [_]
        rw [hh, h2]
        rfl
      · intro hd
        rw [h3 hd, hwin]
  · exfalso
    rcases hterm with h | h | h <;> rw [h] at hstat <;>
      exact GameStatus.noConfusion hstat

theorem vsc_inv_step {s s2 : SysState} (hs : vsc_inv s) (st : MStep s s2) :
    vsc_inv s2 := by
  rcases st with ⟨uid, row, col, now, res, hok⟩
  obtain ⟨hstat, sym, board, board2, hsym, hturn, hrec, hget, hset, hres⟩ :=
    make_move_ok_inv hok
  obtain ⟨hpo, hmode, _, hh, hcase⟩ := hs
  have hsymX : sym = Symbol.X := by
    have h2 := resolve_symbol_vsc uid hpo hmode
    rw [hsym] at h2
    exact Option.some.inj h2
  rcases hcase with ⟨hm0, hturnX⟩ | ⟨hm1, hturnO⟩
  · subst hres
    subst hsymX
    have hb : board = empty_board := by
      rw [hm0] at hrec
      exact (Option.some.inj hrec).symm
    subst hb
    have hcw : check_winner board2 = WinResult.none := check_winner_single hset
    rw [finalize_none hcw]
    refine ⟨hpo, hmode, rfl, by simp [hh], Or.inr ⟨by rw [hm0]; rfl, ?_⟩⟩
    show s.game.current_turn.other = Symbol.O
    rw [hturnX]
    rfl
  · exfalso
    rw [hsymX] at hturn
    rw [hturnO] at hturn
    exact Symbol.noConfusion hturn

/-- Claim C3: applyMove on a game whose status is terminal (x_won, o_won,
draw or abandoned) fails with GameNotActive for every requesting player
and every (row, col), and no MStep transition exists from such a state:
terminal states are sinks — status, currentTurn, winner and the move list
never change again under the core operations. -/
theorem claim_C3 (g : Game) (h : terminal_status g.status) :
    (∀ (ms : List MoveRec) (uid : Nat) (row col : Int) (now : Nat),
      make_move g ms uid row col now =
        Except.error ApiError.gameNotActive) ∧
    (∀ s s2 : SysState, s.game = g → ¬ MStep s s2) := by
  have hne : g.status ≠ GameStatus.in_progress := by
    rcases h with h | h | h | h <;> rw [h] <;>
      exact fun hc => GameStatus.noConfusion hc
  constructor
  · intro ms uid row col now
    exact make_move_not_active ms uid row col now hne
  · intro s s2 hgame st
    rcases st with ⟨uid, row, col, now, res, hok⟩
    have h1 := (make_move_ok_inv hok).1
    rw [hgame] at h1
    exact hne h1

/-- Witness for C3 at a concrete finished game. -/
theorem claim_C3_witness :
    make_move g3w [] 7 0 0 0 = Except.error ApiError.gameNotActive :=
  (claim_C3 g3w (Or.inl rfl)).1 [] 7 0 0 0

/-- Claim C2: a vs_computer game (O slot unset) created by start_game can
never accumulate more than one move, never leaves in_progress and never
produces a match-history row: the first successful move flips the turn to
O, and every later make_move resolves the requester to X and fails
NotYourTurn. -/
theorem claim_C2 (gid : Nat) (users : List UserRec) (cu : UserRec)
    (req : StartGameRequest) (g0 : Game) (s : SysState)
    (hg : start_game gid users cu req = Except.ok g0)
    (hpo : g0.player_o_id = none)
    (hr : Reachable (init_state g0) s) :
    s.moves.length ≤ 1 ∧ s.game.status = GameStatus.in_progress ∧
    s.histories = [] := by
  have hfields : g0.game_mode = "vs_computer" ∧ g0.current_turn = Symbol.X ∧
      g0.status = GameStatus.in_progress := by
    rcases start_game_ok_inv hg with h | ⟨oid, h⟩
    · subst h
      exact ⟨rfl, rfl, rfl⟩
    · subst h
      exact absurd hpo (by simp [new_game])
  have h0 : vsc_inv (init_state g0) :=
    ⟨hpo, hfields.1, hfields.2.2, rfl, Or.inl ⟨rfl, hfields.2.1⟩⟩
  have hinv : vsc_inv s := by
    induction hr with
    | refl => exact h0
    | tail _ st ih => exact vsc_inv_step ih st
  obtain ⟨_, _, hst, hh, hcase⟩ := hinv
  refine ⟨?_, hst, hh⟩
  rcases hcase with ⟨hm, _⟩ | ⟨hm, _⟩
  · simp [hm]
  · rw [hm]

/-- Witness for C2 at a freshly created vs_computer game. -/
theorem claim_C2_witness :
    (init_state (new_game 7 5 none "vs_computer")).moves.length ≤ 1 ∧
    (init_state (new_game 7 5 none "vs_computer")).game.status =
      GameStatus.in_progress ∧
    (init_state (new_game 7 5 none "vs_computer")).histories = [] :=
  claim_C2 7 [] ⟨5, "eve"⟩ ⟨none, "vs_player"⟩
    (new_game 7 5 none "vs_computer")
    (init_state (new_game 7 5 none "vs_computer")) rfl rfl
    Relation.ReflTransGen.refl

/-- Claim C5: starting from a game start_game created, the states
reachable by make_move carry no match-history row while the game is in
progress, and exactly one — created by the very move that made the status
terminal, mirroring the game row's id, players, winner (unset for a draw)
and result — once the status is terminal; start_game itself creates
none. -/
theorem claim_C5 (gid : Nat) (users : List UserRec) (cu : UserRec)
    (req : StartGameRequest) (g0 : Game) (s : SysState)
    (hg : start_game gid users cu req = Except.ok g0)
    (hr : Reachable (init_state g0) s) :
    (s.game.status = GameStatus.in_progress ∧ s.histories = []) ∨
    ((s.game.status = GameStatus.x_won ∨ s.game.status = GameStatus.o_won ∨
        s.game.status = GameStatus.draw) ∧
      ∃ hrec, s.histories = [hrec] ∧
        hrec.game_id = s.game.id ∧
        hrec.player_x_id = s.game.player_x_id ∧
        hrec.player_o_id = s.game.player_o_id ∧
        hrec.winner_id = s.game.winner_id ∧
        hrec.result = s.game.status ∧
        (s.game.status = GameStatus.draw → hrec.winner_id = none)) := by
  have h0 : hist_inv (init_state g0) := by
    rcases start_game_ok_inv hg with h | ⟨oid, h⟩ <;> subst h <;>
      exact Or.inl ⟨rfl, rfl, rfl⟩
  have hinv : hist_inv s := by
    induction hr with
    | refl => exact h0
    | tail _ st ih => exact hist_inv_step ih st
  rcases hinv with ⟨h1, _, h2⟩ | h
  · exact Or.inl ⟨h1, h2⟩
  · exact Or.inr h

/-- Witness for C5 at a freshly created vs_player game. -/
theorem claim_C5_witness :
    ((init_state (new_game 9 1 (some 2) "vs_player")).game.status =
        GameStatus.in_progress ∧
      (init_state (new_game 9 1 (some 2) "vs_player")).histories = []) ∨
    (((init_state (new_game 9 1 (some 2) "vs_player")).game.status =
        GameStatus.x_won ∨
      (init_state (new_game 9 1 (some 2) "vs_player")).game.status =
        GameStatus.o_won ∨
      (init_state (new_game 9 1 (some 2) "vs_player")).game.status =
        GameStatus.draw) ∧
      ∃ hrec,
        (init_state (new_game 9 1 (some 2) "vs_player")).histories =
          [hrec] ∧
        hrec.game_id =
          (init_state (new_game 9 1 (some 2) "vs_player")).game.id ∧
        hrec.player_x_id =
          (init_state (new_game 9 1 (some 2) "vs_player")).game.player_x_id ∧
        hrec.player_o_id =
          (init_state (new_game 9 1 (some 2) "vs_player")).game.player_o_id ∧
        hrec.winner_id =
          (init_state (new_game 9 1 (some 2) "vs_player")).game.winner_id ∧
        hrec.result =
          (init_state (new_game 9 1 (some 2) "vs_player")).game.status ∧
        ((init_state (new_game 9 1 (some 2) "vs_player")).game.status =
            GameStatus.draw → hrec.winner_id = none)) :=
  claim_C5 9 [⟨1, "alice"⟩, ⟨2, "bob"⟩] ⟨1, "alice"⟩
    ⟨some "bob", "vs_player"⟩ (new_game 9 1 (some 2) "vs_player")
    (init_state (new_game 9 1 (some 2) "vs_player")) (by decide)
    Relation.ReflTransGen.refl

/-- Counterexample to C1 as stated: user 2 is not a participant of the
vs_computer game `gC1` (playerX is 1, playerO unset), yet make_move does
not fail with PlayerNotInGame — it resolves user 2 to X and the move
succeeds. -/
theorem claim_C1_counterexample :
    resolve_symbol gC1 2 = some Symbol.X ∧
    make_move gC1 [] 2 0 0 7 = Except.ok r1w := by
  exact ⟨rfl, rfl⟩

/-- Claim C1 (amended): the requester's symbol resolves to X when the
requester is playerX, to O when the requester is playerO, and — when
playerO is unset and the mode is vs_computer — to X for ANY authenticated
requester, participant or not; make_move fails with PlayerNotInGame only
when none of the three branches applies. -/
theorem claim_C1_amended :
    (∀ (g : Game) (uid : Nat), g.player_x_id = uid →
      resolve_symbol g uid = some Symbol.X) ∧
    (∀ (g : Game) (uid : Nat), g.player_x_id ≠ uid →
      g.player_o_id = some uid → resolve_symbol g uid = some Symbol.O) ∧
    (∀ (g : Game) (uid : Nat), g.player_o_id = none →
      g.game_mode = "vs_computer" → resolve_symbol g uid = some Symbol.X) ∧
    (∀ (g : Game) (ms : List MoveRec) (uid : Nat) (row col : Int)
        (now : Nat),
      g.status = GameStatus.in_progress → g.player_x_id ≠ uid →
      g.player_o_id ≠ some uid →
      ¬(g.player_o_id = none ∧ g.game_mode = "vs_computer") →
      make_move g ms uid row col now =
        Except.error ApiError.playerNotInGame) := by
  refine ⟨fun g uid h => resolve_symbol_px h,
    fun g uid hx h => resolve_symbol_po hx h,
    fun g uid hpo hm => resolve_symbol_vsc uid hpo hm,
    fun g ms uid row col now hst hx ho hv => ?_⟩
  unfold make_move
  rw [if_neg (not_not_intro hst), resolve_symbol_none hx ho hv]

/-- Witness for C1 (amended): an outsider of a vs_computer game resolves
to X, and a stranger to a vs_player game is rejected. -/
theorem claim_C1_witness :
    resolve_symbol gC1 2 = some Symbol.X ∧
    make_move g4w [] 9 0 0 0 = Except.error ApiError.playerNotInGame :=
  ⟨claim_C1_amended.2.2.1 gC1 2 rfl rfl,
   claim_C1_amended.2.2.2 g4w [] 9 0 0 0 rfl (by decide) (by decide)
     (by decide)⟩

/-- Claim C4: on every successful make_move with a well-formed input game
(no winner recorded yet, nonzero player ids), the post-move board is
evaluated: a win sets status to x_won or o_won and the winner to the
winning side's player identity and sets endedAt; a draw sets status draw
and endedAt; otherwise the turn flips and the status stays
in_progress. -/
theorem claim_C4 (g : Game) (ms : List MoveRec) (uid : Nat)
    (row col : Int) (now : Nat) (res : MoveResult)
    (hw : g.winner_id = none) (hx : g.player_x_id ≠ 0)
    (hpo : ∀ p, g.player_o_id = some p → p ≠ 0)
    (h : make_move g ms uid row col now = Except.ok res) :
    (check_winner res.board = WinResult.sym Symbol.X →
      res.game.status = GameStatus.x_won ∧
      res.game.winner_id = some g.player_x_id ∧
      res.game.end_time = some now) ∧
    (check_winner res.board = WinResult.sym Symbol.O →
      res.game.status = GameStatus.o_won ∧
      res.game.winner_id = g.player_o_id ∧
      res.game.end_time = some now) ∧
    (check_winner res.board = WinResult.draw →
      res.game.status = GameStatus.draw ∧
      res.game.end_time = some now) ∧
    (check_winner res.board = WinResult.none →
      res.game.status = GameStatus.in_progress ∧
      res.game.current_turn = g.current_turn.other) := by
  obtain ⟨-, sym, board, board2, -, -, -, -, hset, hres⟩ :=
    make_move_ok_inv h
  subst hres
  obtain ⟨-, -, -, -, -, hb⟩ := finalize_fields g board2
    ⟨g.id, ms.length + 1, uid, row, col, sym⟩ now
  rw [hb]
  refine ⟨?_, ?_, ?_, ?_⟩ <;> intro hcw
  · rw [finalize_x hcw hx]
    exact ⟨rfl, rfl, rfl⟩
  · rcases hpo2 : g.player_o_id with _ | p
    · rw [finalize_o_none hcw hpo2]
      exact ⟨rfl, hw, rfl⟩
    · rw [finalize_o_some hcw hpo2 (hpo p hpo2)]
      exact ⟨rfl, rfl, rfl⟩
  · rw [finalize_draw hcw]
    exact ⟨rfl, rfl⟩
  · rw [finalize_none hcw]
    exact ⟨rfl, rfl⟩

/-- Witness for C4: user 1 completes the top row of `g4w`, and the
committed result has status x_won, winner playerX and endedAt set. -/
theorem claim_C4_witness :
    (check_winner r4w.board = WinResult.sym Symbol.X →
      r4w.game.status = GameStatus.x_won ∧
      r4w.game.winner_id = some g4w.player_x_id ∧
      r4w.game.end_time = some 99) ∧
    (check_winner r4w.board = WinResult.sym Symbol.O →
      r4w.game.status = GameStatus.o_won ∧
      r4w.game.winner_id = g4w.player_o_id ∧
      r4w.game.end_time = some 99) ∧
    (check_winner r4w.board = WinResult.draw →
      r4w.game.status = GameStatus.draw ∧
      r4w.game.end_time = some 99) ∧
    (check_winner r4w.board = WinResult.none →
      r4w.game.status = GameStatus.in_progress ∧
      r4w.game.current_turn = g4w.current_turn.other) :=
  claim_C4 g4w ms4w 1 0 2 99 r4w rfl (by decide)
    (by intro p hp; injection hp with hp; omega) rfl

/-- Counterexample to C6 as stated: a move sequence whose second move
targets the already-occupied cell (0,0) does not make reconstruct_board
fail — it produces a board, with the later symbol overwriting the
earlier one. -/
theorem claim_C6_counterexample :
    reconstruct_board dup_moves =
      some ((some Symbol.O, none, none), (none, none, none),
            (none, none, none)) := by
  rfl

/-- Claim C6 (amended): reconstruct_board performs no occupancy check and
never fails on in-range moves: appending a move whose row and col are
valid Python indices always succeeds and simply assigns the cell,
silently overwriting any earlier move that targeted it; there is no
InvalidMoveSequence failure in the code. -/
theorem claim_C6_amended (ms : List MoveRec) (m : MoveRec) (b : Board)
    (hb : reconstruct_board ms = some b)
    (hri : pyIdx3 m.row ≠ none) (hci : pyIdx3 m.col ≠ none) :
    reconstruct_board (ms ++ [m]) =
      board_set_py b m.row m.col (some m.symbol) ∧
    (board_set_py b m.row m.col (some m.symbol)).isSome = true := by
  obtain ⟨i, hi⟩ := Option.ne_none_iff_exists'.mp hri
  obtain ⟨j, hj⟩ := Option.ne_none_iff_exists'.mp hci
  have hsome : (board_set_py b m.row m.col (some m.symbol)).isSome =
      true := by
    unfold board_set_py
    rw [hi, hj]
    simp only [Option.some_bind]
    exact board_set_nat_isSome b i j _ (pyIdx3_lt hi) (pyIdx3_lt hj)
  refine ⟨?_, hsome⟩
  unfold reconstruct_board
  rw [List.foldlM_append]
  unfold reconstruct_board at hb
  rw [hb]
  simp [List.foldlM]

/-- Witness for C6 (amended): appending a second move on the occupied
cell (0,0) succeeds and overwrites it with O. -/
theorem claim_C6_witness :
    reconstruct_board
        ([⟨1, 1, 1, 0, 0, Symbol.X⟩] ++ [⟨1, 2, 1, 0, 0, Symbol.O⟩]) =
      board_set_py
        ((some Symbol.X, none, none), (none, none, none),
         (none, none, none)) 0 0 (some Symbol.O) ∧
    (board_set_py
        ((some Symbol.X, none, none), (none, none, none),
         (none, none, none)) 0 0 (some Symbol.O)).isSome = true :=
  claim_C6_amended [⟨1, 1, 1, 0, 0, Symbol.X⟩] ⟨1, 2, 1, 0, 0, Symbol.O⟩
    ((some Symbol.X, none, none), (none, none, none), (none, none, none))
    rfl (by decide) (by decide)

/-- Counterexample to C9 as stated: the opponent username "bob" does not
resolve to a registered player and the mode is vs_player, yet start_game
does not create a vs_computer game — it fails with InvalidOpponent. -/
theorem claim_C9_counterexample :
    start_game 42 [⟨1, "alice"⟩] ⟨1, "alice"⟩
        ⟨some "bob", "vs_player"⟩ =
      Except.error ApiError.invalidOpponent := by
  decide

/-- Claim C9 (amended): start_game creates a vs_computer game — only the
X slot filled, status in_progress, currentTurn X — exactly when no
opponent username is supplied (or it is empty) or the mode is not
vs_player; when a truthy opponent username is supplied with mode
vs_player, an unresolvable or self opponent fails with InvalidOpponent,
and a resolvable distinct one yields a vs_player game. -/
theorem claim_C9_amended :
    (∀ (gid : Nat) (users : List UserRec) (cu : UserRec)
        (req : StartGameRequest),
      req.opponent_username = none ∨ req.opponent_username = some "" ∨
        req.game_mode ≠ "vs_player" →
      start_game gid users cu req =
        Except.ok (new_game gid cu.id none "vs_computer")) ∧
    (∀ (gid : Nat) (users : List UserRec) (cu : UserRec)
        (req : StartGameRequest),
      py_truthy_str req.opponent_username = true →
      req.game_mode = "vs_player" →
      find_user users (py_lower (req.opponent_username.getD "")) = none →
      start_game gid users cu req =
        Except.error ApiError.invalidOpponent) ∧
    (∀ (gid : Nat) (users : List UserRec) (cu : UserRec)
        (req : StartGameRequest) (opp : UserRec),
      py_truthy_str req.opponent_username = true →
      req.game_mode = "vs_player" →
      find_user users (py_lower (req.opponent_username.getD "")) =
        some opp →
      opp.id = cu.id →
      start_game gid users cu req =
        Except.error ApiError.invalidOpponent) ∧
    (∀ (gid : Nat) (users : List UserRec) (cu : UserRec)
        (req : StartGameRequest) (opp : UserRec),
      py_truthy_str req.opponent_username = true →
      req.game_mode = "vs_player" →
      find_user users (py_lower (req.opponent_username.getD "")) =
        some opp →
      opp.id ≠ cu.id →
      start_game gid users cu req =
        Except.ok (new_game gid cu.id (some opp.id) "vs_player")) := by
  refine ⟨?_, ?_, ?_, ?_⟩
  · intro gid users cu req hcase
    have hcond : ¬(py_truthy_str req.opponent_username = true ∧
        req.game_mode = "vs_player") := by
      rintro ⟨h1, h2⟩
      rcases hcase with hc | hc | hc
      · rw [hc] at h1
        simp [py_truthy_str] at h1
      · rw [hc] at h1
        simp [py_truthy_str] at h1
      · exact hc h2
    unfold start_game
    rw [if_neg hcond]
  · intro gid users cu req h1 h2 hf
    unfold start_game
    rw [if_pos ⟨h1, h2⟩, hf]
  · intro gid users cu req opp h1 h2 hf hid
    unfold start_game
    rw [if_pos ⟨h1, h2⟩, hf]
    simp only []
    rw [if_pos hid]
  · intro gid users cu req opp h1 h2 hf hid
    unfold start_game
    rw [if_pos ⟨h1, h2⟩, hf]
    simp only []
    rw [if_neg hid]

/-- Witness for C9 (amended): a request with no opponent username yields
a vs_computer game; the self-opponent request "Alice" (lowercased to the
creator's own username) fails with InvalidOpponent. -/
theorem claim_C9_witness :
    start_game 7 [] ⟨5, "eve"⟩ ⟨none, "vs_player"⟩ =
      Except.ok (new_game 7 5 none "vs_computer") ∧
    start_game 8 [⟨1, "alice"⟩] ⟨1, "alice"⟩ ⟨some "Alice", "vs_player"⟩ =
      Except.error ApiError.invalidOpponent :=
  ⟨claim_C9_amended.1 7 [] ⟨5, "eve"⟩ ⟨none, "vs_player"⟩ (Or.inl rfl),
   claim_C9_amended.2.2.1 8 [⟨1, "alice"⟩] ⟨1, "alice"⟩
     ⟨some "Alice", "vs_player"⟩ ⟨1, "alice"⟩ (by decide) rfl (by decide)
     rfl⟩

/-- Counterexample to C10 as stated: row -1 is outside [0,2], yet
make_move does not fail with OutOfBounds — following Python list
indexing it wraps around and succeeds, placing the mark on row 2. -/
theorem claim_C10_counterexample :
    make_move g4w [] 1 (-1) 0 9 = Except.ok r10w ∧
    make_move g4w [] 1 (-1) 0 9 ≠ Except.error ApiError.outOfBounds := by
  exact ⟨rfl, by decide⟩

/-- Claim C10 (amended): the bounds 0 <= row, col <= 2 are enforced only
by the MoveRequest schema layer, which rejects out-of-range values with a
validation error; make_move itself never produces OutOfBounds (an
out-of-range index follows Python list-indexing semantics instead), and
an in-range move onto an occupied cell fails with CellOccupied. -/
theorem claim_C10_amended :
    (∀ row col : Int,
      ¬(0 ≤ row ∧ row ≤ 2 ∧ 0 ≤ col ∧ col ≤ 2) →
      validate_move_request row col =
        Except.error ApiError.validationError) ∧
    (∀ (g : Game) (ms : List MoveRec) (uid : Nat) (row col : Int)
        (now : Nat),
      make_move g ms uid row col now ≠
        Except.error ApiError.outOfBounds) ∧
    (∀ (g : Game) (ms : List MoveRec) (uid : Nat) (row col : Int)
        (now : Nat) (board : Board) (c : Symbol),
      g.status = GameStatus.in_progress →
      resolve_symbol g uid = some g.current_turn →
      reconstruct_board ms = some board →
      board_get_py board row col = some (some c) →
      make_move g ms uid row col now =
        Except.error ApiError.cellOccupied) := by
  refine ⟨?_, ?_, ?_⟩
  · intro row col h
    unfold validate_move_request
    rw [if_neg h]
  · intro g ms uid row col now h
    unfold make_move at h
    repeat' split at h
    all_goals
      first
      | (injection h with h; exact ApiError.noConfusion h)
      | exact Except.noConfusion h
  · intro g ms uid row col now board c hst hsym hrec hget
    simp [make_move, hst, hsym, hrec, hget]

/-- Witness for C10 (amended): row 3 is rejected by the schema; a
terminal-game move errors with GameNotActive rather than OutOfBounds; and
replaying user 1 onto the occupied cell (0,0) of `g4w` fails with
CellOccupied. -/
theorem claim_C10_witness :
    validate_move_request 3 0 = Except.error ApiError.validationError ∧
    make_move g4w [] 1 5 5 0 ≠ Except.error ApiError.outOfBounds ∧
    make_move g4w ms4w 1 0 0 5 = Except.error ApiError.cellOccupied :=
  ⟨claim_C10_amended.1 3 0 (by decide),
   claim_C10_amended.2.1 g4w [] 1 5 5 0,
   claim_C10_amended.2.2 g4w ms4w 1 0 0 5
     ((some Symbol.X, some Symbol.X, none),
      (some Symbol.O, some Symbol.O, none), (none, none, none))
     Symbol.X rfl rfl rfl rfl⟩

end TTT
